import Mathlib

/-!
Verification of the `scarb-hints-run` execution driver
(`src/cairo-hints/scarb-hints-run/main.rs`): lock-path resolution,
layout validation, program loading and outcome classification/formatting.
Rust `PathBuf`, `serde_json::Value` and `scarb_metadata::PackageMetadata`
are embedded shallowly; machine behavior (oracle gating in `run_1`, the
versioned-program projection) that lives outside `src/` is modelled from
the specification and marked as such in its doc comment.
-/

namespace CairoHints

/-- Shallow embedding of Rust `PathBuf`: an absolute flag (the path starts
with the root separator) and the list of non-empty components. -/
structure Path where
  absolute : Bool
  components : List String
deriving DecidableEq, Repr

/-- Splitting a character list at every occurrence of a separator
(the list-level counterpart of `String.splitOn` for a one-character
separator). -/
def splitOnChar (sep : Char) : List Char → List (List Char)
  | [] => [[]]
  | c :: rest =>
    if c = sep then [] :: splitOnChar sep rest
    else
      match splitOnChar sep rest with
      | [] => [[c]]
      | h :: t => (c :: h) :: t

namespace Path

/-- `PathBuf::from(&str)`: absolute iff the string starts with `/`;
components are the non-empty slash-separated segments. -/
def fromString (s : String) : Path :=
  ⟨match s.data with
   | c :: _ => c == '/'
   | [] => false,
   ((splitOnChar '/' s.data).filter (fun cs => cs ≠ [])).map (fun cs => String.mk cs)⟩

/-- Rust `Path::is_absolute`. -/
def is_absolute (p : Path) : Bool := p.absolute

/-- Rust `Path::join`: joining an absolute path replaces the base, joining
a relative path appends its components. -/
def join (p q : Path) : Path :=
  if q.absolute then q else ⟨p.absolute, p.components ++ q.components⟩

/-- Rust `Path::parent`: `none` for a root or empty path, otherwise the
path with the last component dropped. -/
def parent (p : Path) : Option Path :=
  match p.components with
  | [] => none
  | _ :: _ => some ⟨p.absolute, p.components.dropLast⟩

/-- Models `.parent().unwrap()` in `absolute_path`: drops the last
component. It agrees with `parent` whenever the path has a parent, i.e.
whenever the source's `unwrap` does not panic (the manifest path always
has at least the `Scarb.toml` component). -/
def parentUnwrap (p : Path) : Path :=
  ⟨p.absolute, p.components.dropLast⟩

end Path

/-- Shallow embedding of `serde_json::Value`. -/
inductive Json where
  | null
  | bool (b : Bool)
  | num (n : Int)
  | str (s : String)
  | arr (elems : List Json)
  | obj (fields : List (String × Json))

namespace Json

/-- `serde_json` indexing `value[key]`: a missing key or a non-object
yields `Null`. -/
def index (j : Json) (key : String) : Json :=
  match j with
  | .obj fields =>
    match fields.lookup key with
    | some v => v
    | none => .null
  | _ => .null

/-- `Value::as_str`. -/
def as_str (j : Json) : Option String :=
  match j with
  | .str s => some s
  | _ => none

end Json

/-- The slice of `scarb_metadata::PackageMetadata` that `absolute_path`
reads: the manifest path and the `[tool.*]` sections of the manifest. -/
structure PackageMetadata where
  manifest_path : Path
  tool : List (String × Json)

/-- `PackageMetadata::tool_metadata(tool_name)`: the `[tool.<name>]`
section of the package manifest, when present. -/
def PackageMetadata.tool_metadata (package : PackageMetadata) (tool_name : String) : Option Json :=
  package.tool.lookup tool_name

/-- `absolute_path` from `scarb-hints-run/main.rs`: selects the explicit
argument, else the string under `config_key` in the `[tool.hints]`
section, else the default; a relative selection is joined to the
directory containing the package manifest. -/
def absolute_path (package : PackageMetadata) (arg : Option Path) (config_key : String)
    (default : Option Path) : Option Path :=
  let manifest_path := package.manifest_path
  let project_dir := manifest_path.parentUnwrap
  match (arg.orElse (fun _ =>
      (package.tool_metadata "hints").bind (fun tool_config =>
        ((tool_config.index config_key).as_str).map Path.fromString))).orElse
      (fun _ => default) with
  | none => none
  | some definitions =>
    if definitions.is_absolute then some definitions
    else some (project_dir.join definitions)

/-- `validate_layout` from `scarb-hints-run/main.rs`. -/
def validate_layout (value : String) : Except String String :=
  match value with
  | "plain" | "small" | "dex" | "starknet" | "starknet_with_keccak"
  | "recursive_large_output" | "all_cairo" | "all_solidity" | "dynamic" =>
    Except.ok value
  | _ => Except.error (value ++ " is not a valid layout")

/-- The closed set of layout names enumerated by the specification
(§3 MemoryLayout). -/
def spec_layouts : List String :=
  ["plain", "small", "dex", "starknet", "starknet_with_keccak",
   "recursive_large_output", "all_cairo", "all_solidity", "dynamic"]

/-- The Stark field prime: felt values produced by the executor lie in
`[0, PRIME)`. -/
def PRIME : Nat := 2 ^ 251 + 17 * 2 ^ 192 + 1

/-- Little-endian base-256 digits of `n`, padded/truncated to `k` bytes. -/
def leBytes : Nat → Nat → List Nat
  | 0, _ => []
  | k + 1, n => n % 256 :: leBytes k (n / 256)

/-- `Felt::to_be_bytes`: the 32-byte big-endian representation of a felt
(modelled on `Nat`; exact for every value below `2 ^ 256`, in particular
for every felt). -/
def to_be_bytes (m : Nat) : List Nat :=
  (leBytes 32 m).reverse

/-- A UTF-8 continuation byte (`0x80..=0xBF`). -/
def utf8_cont (b : Nat) : Bool := 0x80 ≤ b && b ≤ 0xBF

/-- Decoder for the UTF-8 validity/decoding rules of Rust's
`String::from_utf8`: rejects overlong encodings, surrogates and code
points above `0x10FFFF`; returns the decoded characters on success. -/
def utf8_decode_list : List Nat → Option (List Char)
  | [] => some []
  | b :: rest =>
    if b ≤ 0x7F then
      (utf8_decode_list rest).map (fun cs => Char.ofNat b :: cs)
    else if 0xC2 ≤ b && b ≤ 0xDF then
      match rest with
      | b1 :: rest2 =>
        if utf8_cont b1 then
          (utf8_decode_list rest2).map
            (fun cs => Char.ofNat ((b - 0xC0) * 0x40 + (b1 - 0x80)) :: cs)
        else none
      | _ => none
    else if 0xE0 ≤ b && b ≤ 0xEF then
      match rest with
      | b1 :: b2 :: rest3 =>
        if (if b = 0xE0 then 0xA0 ≤ b1 && b1 ≤ 0xBF
            else if b = 0xED then 0x80 ≤ b1 && b1 ≤ 0x9F
            else utf8_cont b1) && utf8_cont b2 then
          (utf8_decode_list rest3).map
            (fun cs =>
              Char.ofNat ((b - 0xE0) * 0x1000 + (b1 - 0x80) * 0x40 + (b2 - 0x80)) :: cs)
        else none
      | _ => none
    else if 0xF0 ≤ b && b ≤ 0xF4 then
      match rest with
      | b1 :: b2 :: b3 :: rest4 =>
        if (if b = 0xF0 then 0x90 ≤ b1 && b1 ≤ 0xBF
            else if b = 0xF4 then 0x80 ≤ b1 && b1 ≤ 0x8F
            else utf8_cont b1) && utf8_cont b2 && utf8_cont b3 then
          (utf8_decode_list rest4).map
            (fun cs =>
              Char.ofNat ((b - 0xF0) * 0x40000 + (b1 - 0x80) * 0x1000 +
                (b2 - 0x80) * 0x40 + (b3 - 0x80)) :: cs)
        else none
      | _ => none
    else none

/-- `String::from_utf8` on a byte vector, as an `Option String`. -/
def from_utf8 (bytes : List Nat) : Option String :=
  (utf8_decode_list bytes).map (fun cs => String.mk cs)

/-- The loaded lock manifest: the set of oracle services the run may
call. The JSON schema beyond this is opaque to the driver (spec §3). -/
structure ServiceConfiguration where
  services : List String

/-- The executor error type (`cairo_oracle_hint_processor::Error`) as it
is consumed by `main`: the CLI variant, the controlled-panic variant
carrying the panic payload, and every remaining hard-failure variant
collapsed into `failure` (the catch-all arm of `main`'s match). -/
inductive RunError where
  | cli
  | runPanic (panic_data : List Nat)
  | failure (reason : String)
deriving DecidableEq, Repr

/-- Modelled from the spec: `run_1` of the `cairo-oracle-hint-processor`
crate (part of this repository but not under `src/`). Spec §4.4: the
program issues zero or more oracle calls; each call is dispatched only
if its declared service matches an entry in the `ServiceConfiguration`;
a call for an undeclared service aborts the run with a distinguishable
error rather than proceeding or being dropped. The executed program is
abstracted as the sequence of service names it calls plus `terminal`,
the outcome it reaches when no call aborts the run. -/
def run_1 (service_configuration : ServiceConfiguration) (calls : List String)
    (terminal : Except RunError (List Nat)) : Except RunError (List Nat) :=
  match calls with
  | [] => terminal
  | c :: rest =>
    if c ∈ service_configuration.services then
      run_1 service_configuration rest terminal
    else
      Except.error (RunError.failure ("unauthorized oracle call: " ++ c))

/-- The line printed for a non-empty `ReturnValues` outcome. -/
def format_return_values (return_values : List Nat) : String :=
  "Return values : [" ++ String.intercalate ", " (return_values.map Nat.repr) ++ "]"

/-- Per-value panic rendering from `main`: try to reinterpret the felt's
big-endian bytes as UTF-8; on success show decimal and text, otherwise
decimal only. -/
def format_panic_value (m : Nat) : String :=
  match from_utf8 (to_be_bytes m) with
  | some msg => Nat.repr m ++ " ('" ++ msg ++ "')"
  | none => Nat.repr m

/-- The line printed for a non-empty `Panic` outcome. -/
def format_panic_line (panic_data : List Nat) : String :=
  "Run panicked with: [" ++ String.intercalate ", " (panic_data.map format_panic_value) ++ "]"

/-- How `main` terminates at the process boundary: `Error::Cli` calls
`err.exit()`, the success paths return `Ok(())`, every other executor
error is returned as `Err`. -/
inductive ProcessOutcome where
  | cliExit
  | ok
  | err (e : RunError)
deriving DecidableEq, Repr

/-- The match on `run_1`'s result at the end of `main`: the lines printed
to stdout and the process outcome. -/
def handle_run_result (res : Except RunError (List Nat)) : List String × ProcessOutcome :=
  match res with
  | .error .cli => ([], ProcessOutcome.cliExit)
  | .ok return_values =>
    (if return_values.isEmpty then [] else [format_return_values return_values],
     ProcessOutcome.ok)
  | .error (.runPanic panic_data) =>
    (if panic_data.isEmpty then [] else [format_panic_line panic_data],
     ProcessOutcome.ok)
  | .error (.failure reason) =>
    ([], ProcessOutcome.err (RunError.failure reason))

/-- Modelled from the spec: the outer envelope of a compiled artifact
(`cairo_lang_sierra::program::VersionedProgram`, an external crate).
Spec §6: the JSON document's outer envelope carries a version tag; the
program body is abstracted to an opaque identifier. -/
structure VersionedProgram where
  version : Nat
  program : Nat
deriving DecidableEq, Repr

/-- Modelled from the spec: `VersionedProgram::into_v1`, the version
projection (external crate `cairo_lang_sierra`). Spec §4.3/§6: this core
supports exactly one projected version; an artifact that parses but
declares any other version is a load-time failure. -/
def into_v1 (vp : VersionedProgram) : Except String Nat :=
  if vp.version = 1 then Except.ok vp.program else Except.error "unsupported version"

/-- The error classes of the loading stages, per the spec's taxonomy
(§7): `Io` for file read failures, `Deserialize` for malformed JSON at a
specific stage — manifest, program envelope, or program version
projection. -/
inductive LoaderError where
  | io (msg : String)
  | deserialize (msg : String)
deriving DecidableEq, Repr

/-- The Program Loader stage of `main`: read the Sierra file (the file
system is abstracted as the optional `contents` of `path`), parse the
versioned envelope (`parseEnvelope` abstracts `serde_json::from_str`),
and project it to version 1. Each failure carries the artifact path, with
the source's message for that stage. -/
def load_sierra_program (path : String) (contents : Option String)
    (parseEnvelope : String → Option VersionedProgram) : Except LoaderError Nat :=
  match contents with
  | none => Except.error (LoaderError.io ("failed to read Sierra file: " ++ path))
  | some text =>
    match parseEnvelope text with
    | none =>
      Except.error (LoaderError.deserialize ("failed to deserialize Sierra program: " ++ path))
    | some vp =>
      match into_v1 vp with
      | .error _ =>
        Except.error (LoaderError.deserialize ("failed to load Sierra program: " ++ path))
      | .ok program => Except.ok program

/-- The load-then-execute sequencing of `main`: `run_1` is invoked only
after the Program Loader stage succeeds, so a loader error is the final
result no matter what the run would do. -/
def main_run (path : String) (contents : Option String)
    (parseEnvelope : String → Option VersionedProgram)
    (service_configuration : ServiceConfiguration) (calls : List String)
    (terminal : Except RunError (List Nat)) :
    Except LoaderError (List String × ProcessOutcome) :=
  (load_sierra_program path contents parseEnvelope).map
    (fun _ => handle_run_result (run_1 service_configuration calls terminal))

/-- The string under `config_key` of the `[tool.hints]` section: the
manifest-declared lock path (source (b) of the precedence chain). -/
def manifest_lock_entry (package : PackageMetadata) (config_key : String) : Option String :=
  (package.tool_metadata "hints").bind
    (fun tool_config => (tool_config.index config_key).as_str)

/-- The precedence rule exactly as the spec words it: the explicit
argument when present, else the manifest tool-config path when present,
else the default. -/
def spec_lock_source (package : PackageMetadata) (arg : Option Path) (config_key : String)
    (default : Option Path) : Option Path :=
  match arg with
  | some p => some p
  | none =>
    match manifest_lock_entry package config_key with
    | some s => some (Path.fromString s)
    | none => default

/-- The uniform post-selection step of `absolute_path`: an absolute
selection is returned unchanged, a relative one is joined to the
directory containing the package manifest. -/
def resolve_against_project (package : PackageMetadata) (p : Path) : Path :=
  if p.is_absolute then p else (package.manifest_path.parentUnwrap).join p

/-- `absolute_path` as invoked from some working directory: the source
function never reads the process's working directory, so the embedding
ignores the `cwd` argument. -/
def absolute_path_from_cwd (_cwd : Path) (package : PackageMetadata) (arg : Option Path)
    (config_key : String) (default : Option Path) : Option Path :=
  absolute_path package arg config_key default

/-- Does `hay` start with `sub`? (character-list level). -/
def charsHasLead : List Char → List Char → Bool
  | [], _ => true
  | _ :: _, [] => false
  | a :: as, b :: bs => a == b && charsHasLead as bs

/-- Does `hay` contain `sub` as a contiguous run? (character-list
level). -/
def charsHasSub (sub : List Char) : List Char → Bool
  | [] => charsHasLead sub []
  | b :: bs => charsHasLead sub (b :: bs) || charsHasSub sub bs

/-- Substring containment on strings, via the underlying character
lists. -/
def containsSubstr (hay sub : String) : Bool :=
  charsHasSub sub.data hay.data

/-- `Option::expect(msg)` as a total function: the value on `Some`, the
panic message on `None`. -/
def expect_msg {α : Type} (o : Option α) (msg : String) : Except String α :=
  match o with
  | some a => Except.ok a
  | none => Except.error msg

/-- The `expect` message attached to lock resolution in `main`. -/
def lock_path_guidance : String :=
  "lock path must be provided either as an argument (--oracle-lock src) or in the Scarb.toml file in the [tool.hints] section."

/-- Lock resolution as `main` performs it: `absolute_path` with the
`oracle_lock` config key and the `Oracle.lock` default, surfaced fatally
through `expect` when no source resolves. -/
def resolve_lock (package : PackageMetadata) (arg : Option Path) : Except String Path :=
  expect_msg
    (absolute_path package arg "oracle_lock" (some (Path.fromString "Oracle.lock")))
    lock_path_guidance

/-- A concrete manifest path used by the witnesses. -/
def sample_manifest_path : Path := Path.fromString "/ws/app/Scarb.toml"

/-- A package whose `[tool.hints]` section carries an `oracle_lock`
entry with a relative path. -/
def sample_package : PackageMetadata :=
  ⟨sample_manifest_path, [("hints", Json.obj [("oracle_lock", Json.str "locks/Oracle.lock")])]⟩

/-- A package whose `[tool.hints]` section carries an `oracle_lock`
entry with an absolute path. -/
def sample_package_abs : PackageMetadata :=
  ⟨sample_manifest_path, [("hints", Json.obj [("oracle_lock", Json.str "/cfg/Oracle.lock")])]⟩

/-- A package whose `[tool.hints]` section exists but has no
`oracle_lock` entry. -/
def sample_package_no_lock : PackageMetadata :=
  ⟨sample_manifest_path, [("hints", Json.obj [("definitions", Json.str "src/defs.json")])]⟩

/-- `Path.parentUnwrap` agrees with `Path.parent` whenever the path has a
parent, i.e. whenever the source's `.parent().unwrap()` does not panic. -/
theorem parent_eq_parentUnwrap (p : Path) (q : Path) (h : p.parent = some q) :
    q = p.parentUnwrap := by
  unfold Path.parent at h
  cases hc : p.components with
  | nil => rw [hc] at h; simp at h
  | cons a l => rw [hc] at h; simp at h; rw [← h]; unfold Path.parentUnwrap; rw [hc]

/-- C2 counterexample: the spec's closed set of layout names has nine
pairwise-distinct members, each accepted by `validate_layout` (returning
the same string), so acceptance cannot coincide with membership in any
set of eight layouts: the claim's count of 8 is wrong. -/
theorem validate_layout_nine_layouts :
    spec_layouts.Nodup ∧ spec_layouts.length = 9 ∧ spec_layouts.length ≠ 8 ∧
    spec_layouts.all
      (fun v =>
        match validate_layout v with
        | Except.ok w => w == v
        | Except.error _ => false) = true := by
  refine ⟨by decide, rfl, by decide, rfl⟩

/-- C2 (amended): layout validation is a total pure function on strings:
a string in the closed set of 9 named layouts stated by the spec is
accepted unchanged, and every other string is rejected with an error
message naming the offending value. -/
theorem validate_layout_total_on_spec_set (value : String) :
    (value ∈ spec_layouts → validate_layout value = Except.ok value) ∧
    (value ∉ spec_layouts →
      validate_layout value = Except.error (value ++ " is not a valid layout")) := by
  constructor
  · intro h
    simp [spec_layouts] at h
    rcases h with h | h | h | h | h | h | h | h | h <;> subst h <;> rfl
  · intro h
    simp [spec_layouts] at h
    unfold validate_layout
    split <;> simp_all

/-- C2 witness: a member of the layout set is accepted unchanged and a
non-member is rejected with the message naming it. -/
theorem validate_layout_total_on_spec_set_witness :
    validate_layout "plain" = Except.ok "plain" ∧
    validate_layout "huge" = Except.error ("huge" ++ " is not a valid layout") :=
  ⟨(validate_layout_total_on_spec_set "plain").1 (by decide),
   (validate_layout_total_on_spec_set "huge").2 (by decide)⟩

/-- C1: `absolute_path` selects the explicit argument when present, else
the manifest `[tool.hints]` path under the config key when present, else
the default, and applies the same resolution step to whichever source is
selected. -/
theorem absolute_path_precedence (package : PackageMetadata) (arg : Option Path)
    (config_key : String) (default : Option Path) :
    absolute_path package arg config_key default =
      (spec_lock_source package arg config_key default).map
        (resolve_against_project package) := by
  simp only [absolute_path, spec_lock_source, resolve_against_project, manifest_lock_entry,
    PackageMetadata.tool_metadata, Path.is_absolute]
  cases arg with
  | some p => cases hb : p.absolute <;> simp [Option.orElse, resolve_against_project, Path.is_absolute, hb]
  | none =>
    cases hl : package.tool.lookup "hints" with
    | none =>
      cases default with
      | none => simp [Option.orElse, hl]
      | some d => cases hb : d.absolute <;> simp [Option.orElse, resolve_against_project, Path.is_absolute, hl, hb]
    | some tool_config =>
      cases hs : (tool_config.index config_key).as_str with
      | none =>
        cases default with
        | none => simp [Option.orElse, hl, hs]
        | some d => cases hb : d.absolute <;> simp [Option.orElse, resolve_against_project, Path.is_absolute, hl, hs, hb]
      | some s =>
        cases hb : (Path.fromString s).absolute <;>
          simp [Option.orElse, resolve_against_project, Path.is_absolute, hl, hs, hb]

/-- C3: a relative path obtained from the manifest tool-config source or
from the default filename is joined to the parent directory of the
package manifest; `absolute_path` receives no working directory (the
`cwd` argument of the invocation wrapper is ignored by construction), so
the resolved path is invariant under changes of working directory. -/
theorem absolute_path_relative_resolution (package : PackageMetadata) (config_key : String) :
    (∀ (default : Option Path) (s : String),
      manifest_lock_entry package config_key = some s →
      (Path.fromString s).absolute = false →
      absolute_path package none config_key default =
        some ((package.manifest_path.parentUnwrap).join (Path.fromString s))) ∧
    (∀ d : Path,
      manifest_lock_entry package config_key = none →
      d.absolute = false →
      absolute_path package none config_key (some d) =
        some ((package.manifest_path.parentUnwrap).join d)) ∧
    (∀ (cwd1 cwd2 : Path) (arg default : Option Path),
      absolute_path_from_cwd cwd1 package arg config_key default =
        absolute_path_from_cwd cwd2 package arg config_key default) := by
  refine ⟨?_, ?_, fun _ _ _ _ => rfl⟩
  · intro default s hs hrel
    unfold manifest_lock_entry PackageMetadata.tool_metadata at hs
    cases hl : package.tool.lookup "hints" with
    | none => rw [hl] at hs; simp at hs
    | some tool_config =>
      rw [hl] at hs; simp at hs
      simp [absolute_path, PackageMetadata.tool_metadata, Option.orElse, hl, hs,
        Path.is_absolute, hrel]
  · intro d hs hrel
    unfold manifest_lock_entry PackageMetadata.tool_metadata at hs
    cases hl : package.tool.lookup "hints" with
    | none =>
      simp [absolute_path, PackageMetadata.tool_metadata, Option.orElse, hl,
        Path.is_absolute, hrel]
    | some tool_config =>
      rw [hl] at hs; simp at hs
      simp [absolute_path, PackageMetadata.tool_metadata, Option.orElse, hl, hs,
        Path.is_absolute, hrel]

/-- C3 witness: for a manifest at `/ws/app/Scarb.toml`, the relative
tool-config path `locks/Oracle.lock` resolves under `/ws/app`, and the
relative default `Oracle.lock` resolves under `/ws/app` when the
tool-config entry is missing. -/
theorem absolute_path_relative_resolution_witness :
    absolute_path sample_package none "oracle_lock" (some (Path.fromString "Oracle.lock")) =
      some ⟨true, ["ws", "app", "locks", "Oracle.lock"]⟩ ∧
    absolute_path sample_package_no_lock none "oracle_lock"
        (some (Path.fromString "Oracle.lock")) =
      some ⟨true, ["ws", "app", "Oracle.lock"]⟩ := by
  constructor
  · exact ((absolute_path_relative_resolution sample_package "oracle_lock").1
      (some (Path.fromString "Oracle.lock")) "locks/Oracle.lock"
      (by decide) (by decide)).trans (by decide)
  · exact ((absolute_path_relative_resolution sample_package_no_lock "oracle_lock").2.1
      (Path.fromString "Oracle.lock") (by decide) (by decide)).trans (by decide)

/-- C9: when the explicit argument is absent, the manifest carries no
`oracle_lock` entry under `[tool.hints]` and no default is supplied,
`absolute_path` returns no path; surfacing that result through `main`'s
`expect` fails fatally with the guidance message, which states both the
`--oracle-lock` argument and the `[tool.hints]` manifest section. -/
theorem absolute_path_missing_configuration (package : PackageMetadata)
    (h : manifest_lock_entry package "oracle_lock" = none) :
    absolute_path package none "oracle_lock" none = none ∧
    expect_msg (absolute_path package none "oracle_lock" none) lock_path_guidance =
      Except.error lock_path_guidance ∧
    containsSubstr lock_path_guidance "--oracle-lock" = true ∧
    containsSubstr lock_path_guidance "[tool.hints]" = true := by
  have h0 : absolute_path package none "oracle_lock" none = none := by
    unfold manifest_lock_entry PackageMetadata.tool_metadata at h
    cases hl : package.tool.lookup "hints" with
    | none => simp [absolute_path, PackageMetadata.tool_metadata, Option.orElse, hl]
    | some tool_config =>
      rw [hl] at h; simp at h
      simp [absolute_path, PackageMetadata.tool_metadata, Option.orElse, hl, h]
  exact ⟨h0, by rw [h0]; rfl, by decide, by decide⟩

/-- C9 witness: a package whose `[tool.hints]` section lacks the
`oracle_lock` key resolves to no path and fails with the guidance. -/
theorem absolute_path_missing_configuration_witness :
    absolute_path sample_package_no_lock none "oracle_lock" none = none ∧
    expect_msg (absolute_path sample_package_no_lock none "oracle_lock" none)
        lock_path_guidance =
      Except.error lock_path_guidance ∧
    containsSubstr lock_path_guidance "--oracle-lock" = true ∧
    containsSubstr lock_path_guidance "[tool.hints]" = true :=
  absolute_path_missing_configuration sample_package_no_lock (by decide)

/-- C10: the explicit argument receives the same resolution step as the
other sources — a relative explicit path is joined to the manifest's
parent directory — and an absolute path from any source (argument,
tool-config entry, or default) is returned unchanged. -/
theorem absolute_path_uniform_resolution (package : PackageMetadata) (config_key : String) :
    (∀ (default : Option Path) (p : Path), p.absolute = false →
      absolute_path package (some p) config_key default =
        some ((package.manifest_path.parentUnwrap).join p)) ∧
    (∀ (default : Option Path) (p : Path), p.absolute = true →
      absolute_path package (some p) config_key default = some p) ∧
    (∀ (default : Option Path) (s : String),
      manifest_lock_entry package config_key = some s →
      (Path.fromString s).absolute = true →
      absolute_path package none config_key default = some (Path.fromString s)) ∧
    (∀ d : Path, manifest_lock_entry package config_key = none → d.absolute = true →
      absolute_path package none config_key (some d) = some d) := by
  refine ⟨?_, ?_, ?_, ?_⟩
  · intro default p hp
    simp [absolute_path, Option.orElse, Path.is_absolute, hp]
  · intro default p hp
    simp [absolute_path, Option.orElse, Path.is_absolute, hp]
  · intro default s hs habs
    unfold manifest_lock_entry PackageMetadata.tool_metadata at hs
    cases hl : package.tool.lookup "hints" with
    | none => rw [hl] at hs; simp at hs
    | some tool_config =>
      rw [hl] at hs; simp at hs
      simp [absolute_path, PackageMetadata.tool_metadata, Option.orElse, hl, hs,
        Path.is_absolute, habs]
  · intro d hs habs
    unfold manifest_lock_entry PackageMetadata.tool_metadata at hs
    cases hl : package.tool.lookup "hints" with
    | none =>
      simp [absolute_path, PackageMetadata.tool_metadata, Option.orElse, hl,
        Path.is_absolute, habs]
    | some tool_config =>
      rw [hl] at hs; simp at hs
      simp [absolute_path, PackageMetadata.tool_metadata, Option.orElse, hl, hs,
        Path.is_absolute, habs]

/-- C10 witness: a relative explicit argument resolves under the
manifest directory `/ws/app`; absolute paths from the argument, the
tool-config entry and the default come back unchanged. -/
theorem absolute_path_uniform_resolution_witness :
    absolute_path sample_package (some (Path.fromString "my/lock.json")) "oracle_lock" none =
      some ⟨true, ["ws", "app", "my", "lock.json"]⟩ ∧
    absolute_path sample_package (some (Path.fromString "/abs/lock.json")) "oracle_lock" none =
      some (Path.fromString "/abs/lock.json") ∧
    absolute_path sample_package_abs none "oracle_lock" none =
      some (Path.fromString "/cfg/Oracle.lock") ∧
    absolute_path sample_package_no_lock none "oracle_lock"
        (some (Path.fromString "/etc/Oracle.lock")) =
      some (Path.fromString "/etc/Oracle.lock") := by
  refine ⟨?_, ?_, ?_, ?_⟩
  · exact ((absolute_path_uniform_resolution sample_package "oracle_lock").1
      none (Path.fromString "my/lock.json") (by decide)).trans (by decide)
  · exact (absolute_path_uniform_resolution sample_package "oracle_lock").2.1
      none (Path.fromString "/abs/lock.json") (by decide)
  · exact (absolute_path_uniform_resolution sample_package_abs "oracle_lock").2.2.1
      none "/cfg/Oracle.lock" (by decide) (by decide)
  · exact (absolute_path_uniform_resolution sample_package_no_lock "oracle_lock").2.2.2
      (Path.fromString "/etc/Oracle.lock") (by decide) (by decide)

/-- C4: a run whose program calls a service absent from the loaded
`ServiceConfiguration` terminates as a hard failure: `run_1` returns a
`failure` error, never `ok` return values, so the call is neither
silently dropped nor completed. -/
theorem run_1_unauthorized_call_fails (service_configuration : ServiceConfiguration)
    (terminal : Except RunError (List Nat)) :
    ∀ (calls : List String) (c : String), c ∈ calls →
      c ∉ service_configuration.services →
      (∃ reason, run_1 service_configuration calls terminal =
        Except.error (RunError.failure reason)) ∧
      (∀ return_values,
        run_1 service_configuration calls terminal ≠ Except.ok return_values) := by
  intro calls
  induction calls with
  | nil => intro c hc _; simp at hc
  | cons a rest ih =>
    intro c hc hnc
    by_cases ha : a ∈ service_configuration.services
    · have hcr : c ∈ rest := by
        rcases List.mem_cons.mp hc with h | h
        · subst h; exact absurd ha hnc
        · exact h
      have hres := ih c hcr hnc
      simpa [run_1, ha] using hres
    · constructor
      · exact ⟨"unauthorized oracle call: " ++ a, by simp [run_1, ha]⟩
      · intro return_values
        simp [run_1, ha]

/-- C4 witness: with only `sqrt` declared, a program calling `sqrt` then
`rand` fails instead of reaching its normal return values. -/
theorem run_1_unauthorized_call_fails_witness :
    (∃ reason, run_1 ⟨["sqrt"]⟩ ["sqrt", "rand"] (Except.ok [42]) =
      Except.error (RunError.failure reason)) ∧
    (∀ return_values,
      run_1 ⟨["sqrt"]⟩ ["sqrt", "rand"] (Except.ok [42]) ≠ Except.ok return_values) :=
  run_1_unauthorized_call_fails ⟨["sqrt"]⟩ (Except.ok [42]) ["sqrt", "rand"] "rand"
    (by decide) (by decide)

/-- C5: a controlled program panic is a success-path outcome: for every
`RunPanic` payload `main` ends in process success after printing the
payload line (nothing when the payload is empty), while every remaining
executor error is returned at the process boundary as an error. -/
theorem panic_is_success_failure_is_error :
    (∀ panic_data : List Nat,
      (handle_run_result (Except.error (RunError.runPanic panic_data))).2 =
        ProcessOutcome.ok ∧
      (handle_run_result (Except.error (RunError.runPanic panic_data))).1 =
        (if panic_data.isEmpty then [] else [format_panic_line panic_data])) ∧
    (∀ reason : String,
      handle_run_result (Except.error (RunError.failure reason)) =
        ([], ProcessOutcome.err (RunError.failure reason))) :=
  ⟨fun _ => ⟨rfl, rfl⟩, fun _ => rfl⟩

/-- C6: per-value panic rendering: when the 32-byte big-endian
representation of the value decodes as UTF-8, both the decimal value and
the decoded text are displayed; when it does not, only the decimal value
is; and a non-empty payload's rendered values make up the printed
line. -/
theorem format_panic_value_utf8_heuristic (m : Nat) (_hm : m < PRIME) :
    (∀ msg, from_utf8 (to_be_bytes m) = some msg →
      format_panic_value m = Nat.repr m ++ " ('" ++ msg ++ "')") ∧
    (from_utf8 (to_be_bytes m) = none → format_panic_value m = Nat.repr m) ∧
    (∀ panic_data : List Nat, panic_data ≠ [] →
      (handle_run_result (Except.error (RunError.runPanic panic_data))).1 =
        ["Run panicked with: [" ++
          String.intercalate ", " (panic_data.map format_panic_value) ++ "]"]) := by
  refine ⟨?_, ?_, ?_⟩
  · intro msg h
    unfold format_panic_value
    rw [h]
  · intro h
    unfold format_panic_value
    rw [h]
  · intro panic_data hne
    cases panic_data with
    | nil => exact absurd rfl hne
    | cons a t => rfl

/-- C6 witness: the felt 65 decodes (31 NUL characters then `A`) and is
rendered with both forms; the felt 255 has an invalid UTF-8 byte and is
rendered as its decimal form alone. -/
theorem format_panic_value_utf8_heuristic_witness :
    (65 : Nat) < PRIME ∧
    from_utf8 (to_be_bytes 65) =
      some (String.mk (List.replicate 31 (Char.ofNat 0) ++ [Char.ofNat 65])) ∧
    format_panic_value 65 =
      Nat.repr 65 ++ " ('" ++
        String.mk (List.replicate 31 (Char.ofNat 0) ++ [Char.ofNat 65]) ++ "')" ∧
    (255 : Nat) < PRIME ∧
    from_utf8 (to_be_bytes 255) = none ∧
    format_panic_value 255 = Nat.repr 255 ∧
    (handle_run_result (Except.error (RunError.runPanic [65]))).1 =
      ["Run panicked with: [" ++
        String.intercalate ", " ([65].map format_panic_value) ++ "]"] := by
  refine ⟨by decide, by decide,
    (format_panic_value_utf8_heuristic 65 (by decide)).1 _ (by decide),
    by decide, by decide,
    (format_panic_value_utf8_heuristic 255 (by decide)).2.1 (by decide),
    (format_panic_value_utf8_heuristic 65 (by decide)).2.2 [65] (by decide)⟩

/-- C7: an empty `ReturnValues` outcome and an empty `Panic` payload
both print no line at all, and the process still ends in success. -/
theorem empty_outcome_silence :
    handle_run_result (Except.ok []) = ([], ProcessOutcome.ok) ∧
    handle_run_result (Except.error (RunError.runPanic [])) = ([], ProcessOutcome.ok) :=
  ⟨rfl, rfl⟩

/-- C8: an artifact that reads and parses as a versioned envelope but
declares a version other than 1 fails at the Program Loader stage with a
`Deserialize`-class error naming the artifact path, and the pipeline
result is that error whatever the run would have done — `run_1` is never
reached. -/
theorem version_rejection (path text : String)
    (parseEnvelope : String → Option VersionedProgram) (vp : VersionedProgram)
    (hparse : parseEnvelope text = some vp) (hver : vp.version ≠ 1) :
    load_sierra_program path (some text) parseEnvelope =
      Except.error (LoaderError.deserialize ("failed to load Sierra program: " ++ path)) ∧
    ∀ (service_configuration : ServiceConfiguration) (calls : List String)
      (terminal : Except RunError (List Nat)),
      main_run path (some text) parseEnvelope service_configuration calls terminal =
        Except.error
          (LoaderError.deserialize ("failed to load Sierra program: " ++ path)) := by
  have h0 : load_sierra_program path (some text) parseEnvelope =
      Except.error (LoaderError.deserialize ("failed to load Sierra program: " ++ path)) := by
    simp [load_sierra_program, hparse, into_v1, hver]
  exact ⟨h0, fun _ _ _ => by simp [main_run, h0, Except.map]⟩

/-- C8 witness: an envelope declaring version 2 is rejected at load time
with the Deserialize-class message naming the artifact path, and the
whole pipeline returns that error. -/
theorem version_rejection_witness :
    load_sierra_program "t.sierra.json" (some "envelope") (fun _ => some ⟨2, 7⟩) =
      Except.error
        (LoaderError.deserialize ("failed to load Sierra program: " ++ "t.sierra.json")) ∧
    main_run "t.sierra.json" (some "envelope") (fun _ => some ⟨2, 7⟩) ⟨[]⟩ []
        (Except.ok []) =
      Except.error
        (LoaderError.deserialize ("failed to load Sierra program: " ++ "t.sierra.json")) := by
  have h := version_rejection "t.sierra.json" "envelope" (fun _ => some ⟨2, 7⟩) ⟨2, 7⟩
    rfl (by decide)
  exact ⟨h.1, h.2 ⟨[]⟩ [] (Except.ok [])⟩

end CairoHints
